import Mathlib

/-!
# Verification of the store_backend inventory-ledger and credit-settlement core

Shallow embedding of the inventory / sale / payment ledger of the
`store_backend` repository: the PostgreSQL tables and trigger functions of
`src/migrations/models.sql` and `src/migrations/add_payment_tracking.sql`,
and the Express controllers `sale.controller.ts`, `payment.controller.ts`,
`purchase.controller.ts` and `stockMovement.controller.ts`.

Modelling conventions:
* `NUMERIC(10,2)` columns are represented as `Int` (value in hundredths);
  every operation of the embedded code uses only `+`, `-`, sums and
  comparisons, which commute with that fixed-point representation.
* UUIDs are represented as `Nat`; `DB.nextId` plays the role of the id
  generator (`gen_random_uuid()` / `SERIAL`), so fresh rows get ids that
  do not collide with existing ones.
* Each SQL statement (an insert / update / delete together with all the
  triggers and referential actions it fires) is one Lean function of type
  `DB → ... → Except DbError DB`: a statement either fully applies or
  errors leaving the database unchanged, matching per-statement atomicity
  in PostgreSQL.  The controllers issue statements one at a time (the code
  uses no multi-statement transaction), so a later failure does not undo
  an earlier committed statement — exactly as with `supabase` calls.
* PostgreSQL fires several `AFTER` triggers for the same event on the same
  table in alphabetical order of the trigger names; the embedding sequences
  them in that order.
* In a PL/pgSQL row trigger fired by `DELETE`, the record `NEW` is
  unassigned and reading a field of it raises a runtime error which aborts
  the statement.  Trigger functions shared between insert and delete
  triggers therefore take the trigger context as an `Option` and error on
  `none`.
-/

/-- `payment_method` column (`cash`, `mpesa`, `card`, `bank_transfer`). -/
inductive PaymentMethod
  | cash
  | mpesa
  | card
  | bankTransfer
deriving DecidableEq, Repr

/-- `payment_status` column (`pending`, `partial`, `paid`). -/
inductive PaymentStatus
  | pending
  | partiallyPaid
  | paid
deriving DecidableEq, Repr

/-- `movement_type` column of `stock_movements`. -/
inductive MovementType
  | purchase
  | sale
  | adjustment
deriving DecidableEq, Repr

/-- `adjustment_reason` column of `stock_movements`. -/
inductive AdjustmentReason
  | expired
  | damaged
  | lost
  | theft
  | correction
  | breakage
deriving DecidableEq, Repr

/-- A row of the `products` table (the columns the ledger core reads:
`sku` is `UNIQUE`). -/
structure Product where
  id : Nat
  sku : Nat
  isActive : Bool
deriving DecidableEq, Repr

/-- A row of the `suppliers` table (the columns the ledger core reads). -/
structure Supplier where
  id : Nat
  isActive : Bool
deriving DecidableEq, Repr

/-- A row of the `inventory` table: one current-quantity snapshot per
product (`product_id` is `UNIQUE`). -/
structure InventoryRow where
  productId : Nat
  quantity : Int
deriving DecidableEq, Repr

/-- A row of the `customers` table (the columns the ledger core touches). -/
structure Customer where
  id : Nat
  creditLimit : Int
  currentBalance : Int
deriving DecidableEq, Repr

/-- A row of the `sales` table. -/
structure Sale where
  id : Nat
  customerId : Option Nat
  subtotal : Int
  discountAmount : Int
  totalAmount : Int
  paymentMethod : PaymentMethod
  paymentStatus : PaymentStatus
  amountPaid : Int
deriving DecidableEq, Repr

/-- A row of the `sale_items` table. -/
structure SaleItem where
  id : Nat
  saleId : Nat
  productId : Nat
  quantity : Int
  unitPrice : Int
  discount : Int
  lineTotal : Int
deriving DecidableEq, Repr

/-- A row of the `purchases` table (the columns the ledger core touches). -/
structure Purchase where
  id : Nat
  supplierId : Nat
  paymentStatus : PaymentStatus
deriving DecidableEq, Repr

/-- A row of the `purchase_items` table. -/
structure PurchaseItem where
  id : Nat
  purchaseId : Nat
  productId : Nat
  quantity : Int
  unitPrice : Int
  discount : Int
  lineTotal : Int
deriving DecidableEq, Repr

/-- A row of the `stock_movements` table. -/
structure StockMovement where
  id : Nat
  productId : Nat
  movementType : MovementType
  saleItemId : Option Nat
  purchaseItemId : Option Nat
  adjustmentReason : Option AdjustmentReason
  quantityChange : Int
deriving DecidableEq, Repr

/-- A row of the `customer_payments` table. -/
structure CustomerPayment where
  id : Nat
  saleId : Nat
  customerId : Nat
  amount : Int
deriving DecidableEq, Repr

/-- The database state: the tables the ledger core reads and writes, plus
the id generator. -/
structure DB where
  products : List Product
  suppliers : List Supplier
  inventory : List InventoryRow
  customers : List Customer
  sales : List Sale
  saleItems : List SaleItem
  purchases : List Purchase
  purchaseItems : List PurchaseItem
  stockMovements : List StockMovement
  customerPayments : List CustomerPayment
  nextId : Nat
deriving DecidableEq, Repr

/-- The empty database. -/
def DB.empty : DB :=
  { products := [], suppliers := [], inventory := [], customers := []
    sales := [], saleItems := [], purchases := [], purchaseItems := []
    stockMovements := [], customerPayments := [], nextId := 0 }

/-- Draw a fresh id from the generator. -/
def DB.alloc (db : DB) : Nat × DB :=
  (db.nextId, { db with nextId := db.nextId + 1 })

/-- Ways a single SQL statement can fail. -/
inductive DbError
  | checkViolation
  | fkViolation
  | nullNewRecord
deriving DecidableEq, Repr

/-- Current inventory quantity of a product: the quantity of its
`inventory` row, `0` if the row is absent (the controllers read it as
`inventory?.quantity ?? 0`). `product_id` is `UNIQUE`, so first-match
lookup agrees with the database. -/
def invQty : List InventoryRow → Nat → Int
  | [], _ => 0
  | r :: rs, pid => if r.productId = pid then r.quantity else invQty rs pid

/-- Sum of `quantity_change` over the stock movements of one product. -/
def movSum : List StockMovement → Nat → Int
  | [], _ => 0
  | m :: ms, pid =>
      (if m.productId = pid then m.quantityChange else 0) + movSum ms pid

/-! ## SQL layer: table constraints, trigger functions, statements -/

/-- `stock_movements` CHECK constraint `check_single_reference`
(`models.sql`): a `purchase` movement references exactly a purchase item,
a `sale` movement exactly a sale item, an `adjustment` neither. -/
def check_single_reference (m : StockMovement) : Bool :=
  (decide (m.movementType = .purchase) && m.purchaseItemId.isSome && m.saleItemId.isNone) ||
  (decide (m.movementType = .sale) && m.saleItemId.isSome && m.purchaseItemId.isNone) ||
  (decide (m.movementType = .adjustment) && m.saleItemId.isNone && m.purchaseItemId.isNone)

/-- `stock_movements` CHECK constraint on `adjustment_reason`
(`models.sql`): required for adjustments, forbidden otherwise. -/
def check_adjustment_reason (m : StockMovement) : Bool :=
  (decide (m.movementType = .adjustment) && m.adjustmentReason.isSome) ||
  (decide (m.movementType ≠ .adjustment) && m.adjustmentReason.isNone)

/-- Trigger function `update_inventory_from_stock_movement` (`models.sql`):
`INSERT INTO inventory ... ON CONFLICT (product_id) DO UPDATE SET quantity
= inventory.quantity + NEW.quantity_change`.  Fired `AFTER INSERT ON
stock_movements`. -/
def update_inventory_from_stock_movement (db : DB) (new : StockMovement) : DB :=
  if db.inventory.any (fun r => decide (r.productId = new.productId)) then
    { db with inventory := db.inventory.map (fun r =>
        if r.productId = new.productId then
          { r with quantity := r.quantity + new.quantityChange }
        else r) }
  else
    { db with inventory :=
        db.inventory ++ [{ productId := new.productId, quantity := new.quantityChange }] }

/-- One `INSERT INTO stock_movements` statement: CHECK constraints, the
`product_id` foreign key, then the `AFTER INSERT` inventory trigger. -/
def insertStockMovementStmt (db : DB) (m : StockMovement) : Except DbError DB :=
  if !(check_adjustment_reason m && check_single_reference m) then .error .checkViolation
  else if !(db.products.any (fun p => decide (p.id = m.productId))) then .error .fkViolation
  else
    let db1 := { db with stockMovements := db.stockMovements ++ [m] }
    .ok (update_inventory_from_stock_movement db1 m)

/-- `payment_status IN ('pending', 'partial')`. -/
def pendingOrPartial (st : PaymentStatus) : Bool :=
  decide (st = .pending) || decide (st = .partiallyPaid)

/-- The recomputation query shared by the balance trigger functions
(`add_payment_tracking.sql`): `SELECT COALESCE(SUM(s.total_amount -
COALESCE(s.amount_paid, 0)), 0) FROM sales s WHERE s.customer_id = ... AND
s.payment_status IN ('pending', 'partial')`. -/
def customer_outstanding_sum (sales : List Sale) (cid : Nat) : Int :=
  ((sales.filter (fun s =>
      decide (s.customerId = some cid) && pendingOrPartial s.paymentStatus)).map
    (fun s => s.totalAmount - s.amountPaid)).sum

/-- `UPDATE customers SET current_balance = b WHERE id = cid`. -/
def set_customer_balance (db : DB) (cid : Nat) (b : Int) : DB :=
  { db with customers := db.customers.map (fun c =>
      if c.id = cid then { c with currentBalance := b } else c) }

/-- Trigger function `update_customer_balance_on_sale`
(`add_payment_tracking.sql`): if the new/updated sale row has a customer
and status `pending`/`partial`, recompute that customer's balance.  Fired
`AFTER INSERT ON sales` and `AFTER UPDATE ON sales` (the latter `WHEN`
status or amount paid changed). -/
def update_customer_balance_on_sale (db : DB) (new : Sale) : DB :=
  match new.customerId with
  | some cid =>
      if pendingOrPartial new.paymentStatus then
        set_customer_balance db cid (customer_outstanding_sum db.sales cid)
      else db
  | none => db

/-- One `INSERT INTO sales` statement: the `customer_id` foreign key, then
the `AFTER INSERT` trigger `update_customer_balance_on_sale_insert`. -/
def insertSaleStmt (db : DB) (s : Sale) : Except DbError DB :=
  if !(match s.customerId with
       | some cid => db.customers.any (fun c => decide (c.id = cid))
       | none => true) then
    .error .fkViolation
  else
    let db1 := { db with sales := db.sales ++ [s] }
    .ok (update_customer_balance_on_sale db1 s)

/-- The `UPDATE sales SET payment_status = ..., amount_paid = ...` issued
inside `update_sale_payment_status`, together with the `AFTER UPDATE ON
sales` trigger `update_customer_balance_on_sale_update`, which fires only
`WHEN` the status or the amount paid actually changed. -/
def update_sale_payment_fields (db : DB) (saleId : Nat) (st : PaymentStatus)
    (paid : Int) : DB :=
  match db.sales.find? (fun s => decide (s.id = saleId)) with
  | none => db
  | some old =>
      let updated := { old with paymentStatus := st, amountPaid := paid }
      let db1 := { db with sales := db.sales.map (fun s =>
          if s.id = saleId then updated else s) }
      if old.paymentStatus ≠ st ∨ old.amountPaid ≠ paid then
        update_customer_balance_on_sale db1 updated
      else db1

/-- Trigger function `update_customer_balance_on_payment`
(`add_payment_tracking.sql`).  It reads `NEW.sale_id`; the same function is
attached to both the insert and the delete trigger on `customer_payments`,
so in the delete context (`new? = none`, `NEW` unassigned) it errors. -/
def update_customer_balance_on_payment (db : DB) (new? : Option CustomerPayment) :
    Except DbError DB :=
  match new? with
  | none => .error .nullNewRecord
  | some p =>
      match db.sales.find? (fun s => decide (s.id = p.saleId)) with
      | none => .ok db
      | some s =>
          match s.customerId with
          | some cid =>
              .ok (set_customer_balance db cid (customer_outstanding_sum db.sales cid))
          | none => .ok db

/-- Trigger function `update_sale_payment_status`
(`add_payment_tracking.sql`): recompute the sale's `amount_paid` as the sum
of its payments and re-derive `payment_status`.  Also reads `NEW.sale_id`,
so it errors in the delete context. -/
def update_sale_payment_status (db : DB) (new? : Option CustomerPayment) :
    Except DbError DB :=
  match new? with
  | none => .error .nullNewRecord
  | some p =>
      match db.sales.find? (fun s => decide (s.id = p.saleId)) with
      | none => .ok db
      | some s =>
          let paid := ((db.customerPayments.filter
              (fun q => decide (q.saleId = p.saleId))).map (fun q => q.amount)).sum
          let st := if paid ≥ s.totalAmount then PaymentStatus.paid
                    else if paid > 0 then PaymentStatus.partiallyPaid
                    else PaymentStatus.pending
          .ok (update_sale_payment_fields db p.saleId st paid)

/-- One `INSERT INTO customer_payments` statement: the `amount > 0` CHECK,
the foreign keys, then the two `AFTER INSERT` triggers in alphabetical
order of their names: `update_customer_balance_on_payment_insert` before
`update_sale_payment_on_payment_insert`. -/
def insertCustomerPaymentStmt (db : DB) (p : CustomerPayment) : Except DbError DB :=
  if p.amount ≤ 0 then .error .checkViolation
  else if !(db.sales.any (fun s => decide (s.id = p.saleId))) then .error .fkViolation
  else if !(db.customers.any (fun c => decide (c.id = p.customerId))) then .error .fkViolation
  else
    let db1 := { db with customerPayments := db.customerPayments ++ [p] }
    match update_customer_balance_on_payment db1 (some p) with
    | .error e => .error e
    | .ok db2 => update_sale_payment_status db2 (some p)

/-- One `DELETE FROM customer_payments WHERE id = pid` statement: if a row
is deleted, the two `AFTER DELETE` triggers fire (alphabetical order:
`update_customer_balance_on_payment_delete` first); both trigger functions
read `NEW`, which is unassigned on delete, so the statement aborts. -/
def deleteCustomerPaymentStmt (db : DB) (pid : Nat) : Except DbError DB :=
  match db.customerPayments.find? (fun p => decide (p.id = pid)) with
  | none => .ok db
  | some _ =>
      let db1 := { db with customerPayments :=
          db.customerPayments.filter (fun p => !decide (p.id = pid)) }
      match update_customer_balance_on_payment db1 none with
      | .error e => .error e
      | .ok db2 => update_sale_payment_status db2 none

/-- One `INSERT INTO sale_items` statement: foreign keys, then the
`AFTER INSERT` trigger `create_stock_movement_from_sale` (`models.sql`),
which inserts a `sale` movement with `quantity_change = -NEW.quantity`
(which in turn fires the inventory trigger). -/
def insertSaleItemStmt (db : DB) (it : SaleItem) : Except DbError DB :=
  if !(db.sales.any (fun s => decide (s.id = it.saleId))) then .error .fkViolation
  else if !(db.products.any (fun p => decide (p.id = it.productId))) then .error .fkViolation
  else
    let db1 := { db with saleItems := db.saleItems ++ [it] }
    let (mid, db2) := db1.alloc
    insertStockMovementStmt db2
      { id := mid, productId := it.productId, movementType := .sale
        saleItemId := some it.id, purchaseItemId := none
        adjustmentReason := none, quantityChange := -it.quantity }

/-- One `INSERT INTO purchase_items` statement: foreign keys, then the
`AFTER INSERT` trigger `create_stock_movement_from_purchase`
(`models.sql`), which inserts a `purchase` movement with `quantity_change
= NEW.quantity`. -/
def insertPurchaseItemStmt (db : DB) (it : PurchaseItem) : Except DbError DB :=
  if !(db.purchases.any (fun p => decide (p.id = it.purchaseId))) then .error .fkViolation
  else if !(db.products.any (fun p => decide (p.id = it.productId))) then .error .fkViolation
  else
    let db1 := { db with purchaseItems := db.purchaseItems ++ [it] }
    let (mid, db2) := db1.alloc
    insertStockMovementStmt db2
      { id := mid, productId := it.productId, movementType := .purchase
        saleItemId := none, purchaseItemId := some it.id
        adjustmentReason := none, quantityChange := it.quantity }

/-- Does a stock movement reference one of the sale items being deleted? -/
def references_deleted_sale_item (itemIds : List Nat) (m : StockMovement) : Bool :=
  match m.saleItemId with
  | some i => itemIds.contains i
  | none => false

/-- One `DELETE FROM sales WHERE id = saleId` statement with its cascades:
`customer_payments.sale_id` is `ON DELETE CASCADE` (each cascaded payment
delete fires the `AFTER DELETE` payment triggers, which read the
unassigned `NEW` and abort); `sale_items.sale_id` is `ON DELETE CASCADE`;
`stock_movements.sale_item_id` is `ON DELETE SET NULL`, and that implicit
update is re-checked against the table CHECK constraints
(`check_single_reference` fails for a `sale` movement whose
`sale_item_id` becomes `NULL`). -/
def deleteSaleStmt (db : DB) (saleId : Nat) : Except DbError DB :=
  if !(db.sales.any (fun s => decide (s.id = saleId))) then .ok db
  else if db.customerPayments.any (fun p => decide (p.saleId = saleId)) then
    .error .nullNewRecord
  else
    let itemIds := (db.saleItems.filter (fun it => decide (it.saleId = saleId))).map
        (fun it => it.id)
    if db.stockMovements.any (fun m => references_deleted_sale_item itemIds m &&
        !(check_single_reference { m with saleItemId := none } &&
          check_adjustment_reason { m with saleItemId := none })) then
      .error .checkViolation
    else
      .ok { db with
        sales := db.sales.filter (fun s => !decide (s.id = saleId))
        saleItems := db.saleItems.filter (fun it => !decide (it.saleId = saleId))
        stockMovements := db.stockMovements.map (fun m =>
          if references_deleted_sale_item itemIds m then { m with saleItemId := none }
          else m) }

/-- Does a stock movement reference one of the purchase items being
deleted? -/
def references_deleted_purchase_item (itemIds : List Nat) (m : StockMovement) : Bool :=
  match m.purchaseItemId with
  | some i => itemIds.contains i
  | none => false

/-- One `DELETE FROM purchases WHERE id = purchaseId` statement with its
cascades (symmetric to `deleteSaleStmt`; purchases have no payments
sub-ledger). -/
def deletePurchaseStmt (db : DB) (purchaseId : Nat) : Except DbError DB :=
  if !(db.purchases.any (fun p => decide (p.id = purchaseId))) then .ok db
  else
    let itemIds := (db.purchaseItems.filter
        (fun it => decide (it.purchaseId = purchaseId))).map (fun it => it.id)
    if db.stockMovements.any (fun m => references_deleted_purchase_item itemIds m &&
        !(check_single_reference { m with purchaseItemId := none } &&
          check_adjustment_reason { m with purchaseItemId := none })) then
      .error .checkViolation
    else
      .ok { db with
        purchases := db.purchases.filter (fun p => !decide (p.id = purchaseId))
        purchaseItems := db.purchaseItems.filter
          (fun it => !decide (it.purchaseId = purchaseId))
        stockMovements := db.stockMovements.map (fun m =>
          if references_deleted_purchase_item itemIds m then
            { m with purchaseItemId := none }
          else m) }

/-! ## Controllers

Faithful translations of the Express request handlers; each returns the
response outcome together with the database state after the request. -/

/-- One line item of a `createSale` request body. -/
structure SaleItemInput where
  productId : Nat
  quantity : Int
  unitPrice : Int
  discount : Option Int
  lineTotal : Int
deriving DecidableEq, Repr

/-- A `createSale` request body (`CreateSaleInput & { items }`). -/
structure CreateSaleInput where
  customerId : Option Nat
  paymentMethod : Option PaymentMethod
  discountAmount : Option Int
  items : List SaleItemInput
deriving DecidableEq, Repr

/-- Outcome of `createSale` (HTTP 201 or the various 400 responses). -/
inductive CreateSaleResult
  | created (saleId : Nat)
  | noItems
  | productsNotFound
  | inactiveProducts
  | insufficientStock (available requested : Int)
  | saleInsertFailed
  | itemsInsertFailed
deriving DecidableEq, Repr

/-- The duplicated-or-not list of product ids of a request:
`items.map(item => item.product_id)` in `sale.controller.ts`. -/
def saleProductIds (inp : CreateSaleInput) : List Nat :=
  inp.items.map (fun it => it.productId)

/-- The `products` query of `createSale`: `select(...).in('id',
productIds)` returns each matching table row once. -/
def saleProductsQuery (db : DB) (inp : CreateSaleInput) : List Product :=
  db.products.filter (fun p => (saleProductIds inp).contains p.id)

/-- The `products.length !== productIds.length` rejection condition of
`createSale`. -/
def saleProductsMissing (db : DB) (inp : CreateSaleInput) : Bool :=
  decide ((saleProductsQuery db inp).length ≠ (saleProductIds inp).length)

/-- The `inactiveProducts.length > 0` rejection condition of
`createSale`. -/
def saleHasInactive (db : DB) (inp : CreateSaleInput) : Bool :=
  !((saleProductsQuery db inp).filter (fun p => !p.isActive)).isEmpty

/-- The stock-validation loop of `createSale`: for each item in order,
`availableStock = inventoryMap.get(product_id) ?? 0`; the first item with
`quantity > availableStock` produces the `(available, requested)` pair of
the error message.  All lookups go to the one `inventory` read taken
before the loop. -/
def firstInsufficient (inv : List InventoryRow) : List SaleItemInput → Option (Int × Int)
  | [] => none
  | it :: rest =>
      let availableStock := invQty inv it.productId
      if it.quantity > availableStock then some (availableStock, it.quantity)
      else firstInsufficient inv rest

/-- Insert the sale items of a request (one `insert(saleItems)` statement:
all rows with their triggers, or an error and no rows). -/
def insertSaleItemsStmt (db : DB) (saleId : Nat) :
    List SaleItemInput → Except DbError DB
  | [] => .ok db
  | it :: rest =>
      let (iid, db1) := db.alloc
      match insertSaleItemStmt db1
        { id := iid, saleId := saleId, productId := it.productId
          quantity := it.quantity, unitPrice := it.unitPrice
          discount := it.discount.getD 0, lineTotal := it.lineTotal } with
      | .error e => .error e
      | .ok db2 => insertSaleItemsStmt db2 saleId rest

/-- The rollback in `createSale`'s item-failure branch:
`await supabaseAdmin.from('sales').delete().eq('id', sale.id)` with the
result ignored. -/
def rollbackSaleHeader (db : DB) (saleId : Nat) : DB :=
  match deleteSaleStmt db saleId with
  | .ok db' => db'
  | .error _ => db

/-- `createSale` (`sale.controller.ts`).  `itemInsertFails` injects a
store failure of the sale-items insert statement (the failure mode of the
`itemsError` branch); validation and all other statements behave as the
code does. -/
def createSale (db : DB) (inp : CreateSaleInput) (itemInsertFails : Bool) :
    CreateSaleResult × DB :=
  if inp.items.isEmpty then (.noItems, db)
  else if saleProductsMissing db inp then (.productsNotFound, db)
  else if saleHasInactive db inp then (.inactiveProducts, db)
  else
    match firstInsufficient db.inventory inp.items with
    | some (available, requested) => (.insufficientStock available requested, db)
    | none =>
      let subtotal := (inp.items.map (fun it => it.lineTotal)).sum
      let discountAmount := inp.discountAmount.getD 0
      let totalAmount := subtotal - discountAmount
      let paymentMethod := inp.paymentMethod.getD .cash
      let isCashPayment := decide (paymentMethod = .cash)
      let hasCustomer := inp.customerId.isSome
      let paymentStatus := if isCashPayment || !hasCustomer then PaymentStatus.paid
                           else PaymentStatus.pending
      let amountPaid := if isCashPayment || !hasCustomer then totalAmount else 0
      let (saleId, db1) := db.alloc
      let sale : Sale :=
        { id := saleId, customerId := inp.customerId, subtotal := subtotal
          discountAmount := discountAmount, totalAmount := totalAmount
          paymentMethod := paymentMethod, paymentStatus := paymentStatus
          amountPaid := amountPaid }
      match insertSaleStmt db1 sale with
      | .error _ => (.saleInsertFailed, db1)
      | .ok db2 =>
          if itemInsertFails then (.itemsInsertFailed, rollbackSaleHeader db2 saleId)
          else
            match insertSaleItemsStmt db2 saleId inp.items with
            | .ok db3 => (.created saleId, db3)
            | .error _ => (.itemsInsertFailed, rollbackSaleHeader db2 saleId)

/-- Outcome of `deleteSale` / `deletePurchase`. -/
inductive DeleteResult
  | deleted
  | notFound
  | deleteFailed
deriving DecidableEq, Repr

/-- `deleteSale` (`sale.controller.ts`): existence check, then one DELETE
statement relying on the database cascades. -/
def deleteSale (db : DB) (saleId : Nat) : DeleteResult × DB :=
  match db.sales.find? (fun s => decide (s.id = saleId)) with
  | none => (.notFound, db)
  | some _ =>
      match deleteSaleStmt db saleId with
      | .ok db' => (.deleted, db')
      | .error _ => (.deleteFailed, db)

/-- A `recordPayment` request body (`CreateCustomerPaymentInput`). -/
structure PaymentInput where
  saleId : Nat
  amount : Int
  paymentMethod : PaymentMethod
deriving DecidableEq, Repr

/-- Outcome of `recordPayment`. -/
inductive RecordPaymentResult
  | recorded (paymentId : Nat)
  | saleNotFound
  | noCustomer
  | nonPositiveAmount
  | exceedsBalance (amount remaining : Int)
  | insertFailed
deriving DecidableEq, Repr

/-- `recordPayment` (`payment.controller.ts`). -/
def recordPayment (db : DB) (inp : PaymentInput) : RecordPaymentResult × DB :=
  match db.sales.find? (fun s => decide (s.id = inp.saleId)) with
  | none => (.saleNotFound, db)
  | some sale =>
      match sale.customerId with
      | none => (.noCustomer, db)
      | some cid =>
          let amountPaid := sale.amountPaid
          let remainingBalance := sale.totalAmount - amountPaid
          if inp.amount ≤ 0 then (.nonPositiveAmount, db)
          else if inp.amount > remainingBalance then
            (.exceedsBalance inp.amount remainingBalance, db)
          else
            let (pid, db1) := db.alloc
            match insertCustomerPaymentStmt db1
              { id := pid, saleId := inp.saleId, customerId := cid
                amount := inp.amount } with
            | .ok db2 => (.recorded pid, db2)
            | .error _ => (.insertFailed, db1)

/-- Outcome of `deletePayment`. -/
inductive DeletePaymentResult
  | deleted
  | notFound
  | deleteFailed
deriving DecidableEq, Repr

/-- `deletePayment` (`payment.controller.ts`): existence check, then one
DELETE statement ("triggers will update sale and customer balance"). -/
def deletePayment (db : DB) (paymentId : Nat) : DeletePaymentResult × DB :=
  match db.customerPayments.find? (fun p => decide (p.id = paymentId)) with
  | none => (.notFound, db)
  | some _ =>
      match deleteCustomerPaymentStmt db paymentId with
      | .ok db' => (.deleted, db')
      | .error _ => (.deleteFailed, db)

/-- A `createStockAdjustment` request body (`CreateStockMovementInput`). -/
structure StockMovementInput where
  productId : Nat
  movementType : MovementType
  saleItemId : Option Nat
  purchaseItemId : Option Nat
  adjustmentReason : Option AdjustmentReason
  quantityChange : Int
deriving DecidableEq, Repr

/-- Outcome of `createStockAdjustment`. -/
inductive AdjustmentResult
  | created (movementId : Nat)
  | notAdjustmentType
  | missingReason
  | hasItemReference
  | productNotFound
  | inactiveProduct
  | wouldGoNegative (current change : Int)
  | insertFailed
deriving DecidableEq, Repr

/-- `createStockAdjustment` (`stockMovement.controller.ts`). -/
def createStockAdjustment (db : DB) (inp : StockMovementInput) :
    AdjustmentResult × DB :=
  if inp.movementType ≠ MovementType.adjustment then (.notAdjustmentType, db)
  else if inp.adjustmentReason.isNone then (.missingReason, db)
  else if inp.saleItemId.isSome || inp.purchaseItemId.isSome then
    (.hasItemReference, db)
  else
    match db.products.find? (fun p => decide (p.id = inp.productId)) with
    | none => (.productNotFound, db)
    | some product =>
        if !product.isActive then (.inactiveProduct, db)
        else
          let currentStock := invQty db.inventory inp.productId
          let newStock := currentStock + inp.quantityChange
          if newStock < 0 ∧ inp.adjustmentReason ≠ some AdjustmentReason.correction then
            (.wouldGoNegative currentStock inp.quantityChange, db)
          else
            let (mid, db1) := db.alloc
            match insertStockMovementStmt db1
              { id := mid, productId := inp.productId
                movementType := MovementType.adjustment
                saleItemId := none, purchaseItemId := none
                adjustmentReason := inp.adjustmentReason
                quantityChange := inp.quantityChange } with
            | .ok db2 => (.created mid, db2)
            | .error _ => (.insertFailed, db1)

/-- One line item of a `createPurchase` request body. -/
structure PurchaseItemInput where
  productId : Nat
  quantity : Int
  unitPrice : Int
  discount : Option Int
  lineTotal : Int
deriving DecidableEq, Repr

/-- A `createPurchase` request body. -/
structure CreatePurchaseInput where
  supplierId : Nat
  paymentStatus : Option PaymentStatus
  discountAmount : Option Int
  items : List PurchaseItemInput
deriving DecidableEq, Repr

/-- Outcome of `createPurchase`. -/
inductive CreatePurchaseResult
  | created (purchaseId : Nat)
  | noItems
  | supplierNotFound
  | inactiveSupplier
  | productsNotFound
  | itemsInsertFailed
deriving DecidableEq, Repr

/-- The duplicated-or-not list of product ids of a purchase request. -/
def purchaseProductIds (inp : CreatePurchaseInput) : List Nat :=
  inp.items.map (fun it => it.productId)

/-- The `products.length !== productIds.length` rejection condition of
`createPurchase`. -/
def purchaseProductsMissing (db : DB) (inp : CreatePurchaseInput) : Bool :=
  decide ((db.products.filter
      (fun p => (purchaseProductIds inp).contains p.id)).length ≠
    (purchaseProductIds inp).length)

/-- Insert the purchase items of a request (one statement). -/
def insertPurchaseItemsStmt (db : DB) (purchaseId : Nat) :
    List PurchaseItemInput → Except DbError DB
  | [] => .ok db
  | it :: rest =>
      let (iid, db1) := db.alloc
      match insertPurchaseItemStmt db1
        { id := iid, purchaseId := purchaseId, productId := it.productId
          quantity := it.quantity, unitPrice := it.unitPrice
          discount := it.discount.getD 0, lineTotal := it.lineTotal } with
      | .error e => .error e
      | .ok db2 => insertPurchaseItemsStmt db2 purchaseId rest

/-- The rollback in `createPurchase`'s item-failure branch. -/
def rollbackPurchaseHeader (db : DB) (purchaseId : Nat) : DB :=
  match deletePurchaseStmt db purchaseId with
  | .ok db' => db'
  | .error _ => db

/-- `createPurchase` (`purchase.controller.ts`): supplier must exist and be
active, all products must exist, header then items; no stock-sufficiency
check; `payment_status` defaults to `pending`.  `itemInsertFails` injects
a store failure of the items insert statement. -/
def createPurchase (db : DB) (inp : CreatePurchaseInput) (itemInsertFails : Bool) :
    CreatePurchaseResult × DB :=
  if inp.items.isEmpty then (.noItems, db)
  else
    match db.suppliers.find? (fun s => decide (s.id = inp.supplierId)) with
    | none => (.supplierNotFound, db)
    | some supplier =>
        if !supplier.isActive then (.inactiveSupplier, db)
        else if purchaseProductsMissing db inp then (.productsNotFound, db)
        else
          let (purchaseId, db1) := db.alloc
          let purchase : Purchase :=
            { id := purchaseId, supplierId := inp.supplierId
              paymentStatus := inp.paymentStatus.getD .pending }
          let db2 := { db1 with purchases := db1.purchases ++ [purchase] }
          if itemInsertFails then
            (.itemsInsertFailed, rollbackPurchaseHeader db2 purchaseId)
          else
            match insertPurchaseItemsStmt db2 purchaseId inp.items with
            | .ok db3 => (.created purchaseId, db3)
            | .error _ => (.itemsInsertFailed, rollbackPurchaseHeader db2 purchaseId)

/-- `deletePurchase` (`purchase.controller.ts`). -/
def deletePurchase (db : DB) (purchaseId : Nat) : DeleteResult × DB :=
  match db.purchases.find? (fun p => decide (p.id = purchaseId)) with
  | none => (.notFound, db)
  | some _ =>
      match deletePurchaseStmt db purchaseId with
      | .ok db' => (.deleted, db')
      | .error _ => (.deleteFailed, db)

/-- A `createProduct` request body (`CreateProductInput`); `hasQuantityField`
models the `'quantity' in productData` presence check. -/
structure CreateProductInput where
  sku : Nat
  purchasePrice : Int
  retailPrice : Int
  wholesalePrice : Option Int
  isActive : Option Bool
  hasQuantityField : Bool
deriving DecidableEq, Repr

/-- Outcome of `createProduct`. -/
inductive CreateProductResult
  | created (productId : Nat)
  | quantityNotAllowed
  | retailBelowPurchase
  | wholesaleAboveRetail
  | duplicateSku
  | inventoryInsertFailed
deriving DecidableEq, Repr

/-- One `INSERT INTO inventory` statement: the `product_id` UNIQUE
constraint and foreign key (the table has no insert triggers). -/
def insertInventoryStmt (db : DB) (r : InventoryRow) : Except DbError DB :=
  if db.inventory.any (fun x => decide (x.productId = r.productId)) then
    .error .checkViolation
  else if !(db.products.any (fun p => decide (p.id = r.productId))) then
    .error .fkViolation
  else .ok { db with inventory := db.inventory ++ [r] }

/-- One `DELETE FROM products WHERE id = pid` statement with its
referential actions: `inventory.product_id` and
`stock_movements.product_id` are `ON DELETE CASCADE`;
`sale_items.product_id` and `purchase_items.product_id` have no action,
so a referenced product cannot be deleted. -/
def deleteProductStmt (db : DB) (pid : Nat) : Except DbError DB :=
  if !(db.products.any (fun p => decide (p.id = pid))) then .ok db
  else if db.saleItems.any (fun it => decide (it.productId = pid)) then
    .error .fkViolation
  else if db.purchaseItems.any (fun it => decide (it.productId = pid)) then
    .error .fkViolation
  else
    .ok { db with
      products := db.products.filter (fun p => !decide (p.id = pid))
      inventory := db.inventory.filter (fun r => !decide (r.productId = pid))
      stockMovements := db.stockMovements.filter
        (fun m => !decide (m.productId = pid)) }

/-- `createProduct` (`product.controller.ts`): rejects a `quantity` field,
validates the price relations and the SKU's uniqueness, inserts the
product row, then DIRECTLY inserts the product's inventory row with
quantity 0; if that insert fails, the product row is deleted again. -/
def createProduct (db : DB) (inp : CreateProductInput) :
    CreateProductResult × DB :=
  if inp.hasQuantityField then (.quantityNotAllowed, db)
  else if inp.retailPrice < inp.purchasePrice then (.retailBelowPurchase, db)
  else if (match inp.wholesalePrice with
           | some w => decide (w > inp.retailPrice)
           | none => false) then (.wholesaleAboveRetail, db)
  else
    match db.products.find? (fun p => decide (p.sku = inp.sku)) with
    | some _ => (.duplicateSku, db)
    | none =>
        let (pid, db1) := db.alloc
        let product : Product :=
          { id := pid, sku := inp.sku, isActive := inp.isActive.getD true }
        let db2 := { db1 with products := db1.products ++ [product] }
        match insertInventoryStmt db2 { productId := pid, quantity := 0 } with
        | .ok db3 => (.created pid, db3)
        | .error _ =>
            (.inventoryInsertFailed,
             match deleteProductStmt db2 pid with
             | .ok db' => db'
             | .error _ => db2)

/-! ## The operations of the ledger core as one step relation -/

/-- A state-changing request of the ledger core.  The `Bool` of the create
operations injects a store failure of the item-insert statement. -/
inductive Op
  | opCreateProduct (inp : CreateProductInput)
  | opCreateSale (inp : CreateSaleInput) (itemInsertFails : Bool)
  | opDeleteSale (saleId : Nat)
  | opCreatePurchase (inp : CreatePurchaseInput) (itemInsertFails : Bool)
  | opDeletePurchase (purchaseId : Nat)
  | opCreateStockAdjustment (inp : StockMovementInput)
  | opRecordPayment (inp : PaymentInput)
  | opDeletePayment (paymentId : Nat)
deriving DecidableEq, Repr

/-- The database state after a request (committed effects, whether the
response was a success or an error). -/
def applyOp (db : DB) : Op → DB
  | .opCreateProduct inp => (createProduct db inp).2
  | .opCreateSale inp fails => (createSale db inp fails).2
  | .opDeleteSale saleId => (deleteSale db saleId).2
  | .opCreatePurchase inp fails => (createPurchase db inp fails).2
  | .opDeletePurchase purchaseId => (deletePurchase db purchaseId).2
  | .opCreateStockAdjustment inp => (createStockAdjustment db inp).2
  | .opRecordPayment inp => (recordPayment db inp).2
  | .opDeletePayment paymentId => (deletePayment db paymentId).2

/-- The inventory/movement consistency invariant: every product's current
inventory quantity (0 when the row is absent) equals the sum of
`quantity_change` over its stock movements. -/
def InventoryInvariant (db : DB) : Prop :=
  ∀ pid : Nat, invQty db.inventory pid = movSum db.stockMovements pid

/-! ## Concrete fixtures for the testable scenarios -/

/-- An adjustment movement row (used by the fixtures). -/
def mkAdjustment (i pid : Nat) (r : AdjustmentReason) (q : Int) : StockMovement :=
  { id := i, productId := pid, movementType := .adjustment, saleItemId := none,
    purchaseItemId := none, adjustmentReason := some r, quantityChange := q }

/-- A sale movement row (used by the fixtures). -/
def mkSaleMovement (i pid itemId : Nat) (q : Int) : StockMovement :=
  { id := i, productId := pid, movementType := .sale, saleItemId := some itemId,
    purchaseItemId := none, adjustmentReason := none, quantityChange := q }

/-- A request line item at unit price 100 (used by the fixtures). -/
def mkLine (pid : Nat) (q : Int) : SaleItemInput :=
  { productId := pid, quantity := q, unitPrice := 100, discount := none,
    lineTotal := q * 100 }

/-- Fixture for the reversal round-trip: product 1 had stock 10, sale 20
with one item (id 21) of quantity 8 brought it to 2; the movement ledger
records both events. -/
def dbReversal : DB :=
  { DB.empty with
      products := [{ id := 1, sku := 1, isActive := true }]
      inventory := [{ productId := 1, quantity := 2 }]
      sales := [{ id := 20, customerId := none, subtotal := 800,
                  discountAmount := 0, totalAmount := 800, paymentMethod := .cash,
                  paymentStatus := .paid, amountPaid := 800 }]
      saleItems := [{ id := 21, saleId := 20, productId := 1, quantity := 8,
                      unitPrice := 100, discount := 0, lineTotal := 800 }]
      stockMovements := [mkAdjustment 10 1 .correction 10, mkSaleMovement 22 1 21 (-8)]
      nextId := 50 }

/-- Fixture for the payment-settlement scenario: customer 5 owes 600 on
sale 20 (total 1000, amount paid 400 via payment 30, status partial). -/
def dbSettlement : DB :=
  { DB.empty with
      customers := [{ id := 5, creditLimit := 0, currentBalance := 600 }]
      sales := [{ id := 20, customerId := some 5, subtotal := 1000,
                  discountAmount := 0, totalAmount := 1000, paymentMethod := .mpesa,
                  paymentStatus := .partiallyPaid, amountPaid := 400 }]
      customerPayments := [{ id := 30, saleId := 20, customerId := 5, amount := 400 }]
      nextId := 100 }

/-- The final payment of the settlement scenario: 600 against the
remaining balance of 600. -/
def finalPaymentInput : PaymentInput :=
  { saleId := 20, amount := 600, paymentMethod := .cash }

/-- An overpayment against the settlement fixture: 700 against a
remaining balance of 600. -/
def overPaymentInput : PaymentInput :=
  { saleId := 20, amount := 700, paymentMethod := .cash }

/-- Fixture with product 1 in stock 10 (one movement). -/
def dbStock10 : DB :=
  { DB.empty with
      products := [{ id := 1, sku := 1, isActive := true }]
      inventory := [{ productId := 1, quantity := 10 }]
      stockMovements := [mkAdjustment 0 1 .correction 10]
      nextId := 2 }

/-- A request listing product 1 twice, 6 each: each line alone is within
the stock of 10, together they exceed it. -/
def duplicateLinesInput : CreateSaleInput :=
  { customerId := none, paymentMethod := some .cash, discountAmount := none,
    items := [mkLine 1 6, mkLine 1 6] }

/-- A three-line request, all for product 1, 4 each (witness input for
the duplicate-rejection theorem). -/
def tripleLinesInput : CreateSaleInput :=
  { customerId := none, paymentMethod := some .cash, discountAmount := none,
    items := [mkLine 1 4, mkLine 1 4, mkLine 1 4] }

/-- A single-line request for 6 units of product 1. -/
def singleLineInput : CreateSaleInput :=
  { customerId := none, paymentMethod := some .cash, discountAmount := none,
    items := [mkLine 1 6] }

/-- A single-line request for 11 units of product 1 (insufficient against
stock 10). -/
def oversizedLineInput : CreateSaleInput :=
  { customerId := none, paymentMethod := some .mpesa, discountAmount := none,
    items := [mkLine 1 11] }

/-- Fixture with product 1 in stock 10 and customer 5 (for credit
sales). -/
def dbStock10Customer : DB :=
  { dbStock10 with customers := [{ id := 5, creditLimit := 0, currentBalance := 0 }] }

/-- A credit-sale request: customer 5, non-cash method, discount 50. -/
def creditSaleInput : CreateSaleInput :=
  { customerId := some 5, paymentMethod := some .mpesa, discountAmount := some 50,
    items := [mkLine 1 6] }

/-- Fixture with product 1 in stock 5 (one movement). -/
def dbStock5 : DB :=
  { DB.empty with
      products := [{ id := 1, sku := 1, isActive := true }]
      inventory := [{ productId := 1, quantity := 5 }]
      stockMovements := [mkAdjustment 0 1 .correction 5]
      nextId := 2 }

/-- An adjustment request of −8 for product 1 with the given reason. -/
def minusEightAdjustment (r : AdjustmentReason) : StockMovementInput :=
  { productId := 1, movementType := .adjustment, saleItemId := none,
    purchaseItemId := none, adjustmentReason := some r, quantityChange := -8 }

/-- A +3 adjustment request for product 1 (witness input). -/
def plusThreeAdjustment : StockMovementInput :=
  { productId := 1, movementType := .adjustment, saleItemId := none,
    purchaseItemId := none, adjustmentReason := some .correction, quantityChange := 3 }

/-- A valid new-product request (SKU 7, purchase 100, retail 150). -/
def newProductInput : CreateProductInput :=
  { sku := 7, purchasePrice := 100, retailPrice := 150, wholesalePrice := none,
    isActive := none, hasQuantityField := false }

/-! ## Helper lemmas about `invQty` and `movSum` -/

theorem movSum_append (l l' : List StockMovement) (pid : Nat) :
    movSum (l ++ l') pid = movSum l pid + movSum l' pid := by
  induction l with
  | nil => simp [movSum]
  | cons m ms ih => simp [movSum, ih, add_assoc]

theorem invQty_eq_zero_of_not_mem (l : List InventoryRow) (p : Nat)
    (h : l.any (fun r => decide (r.productId = p)) = false) : invQty l p = 0 := by
  induction l with
  | nil => rfl
  | cons r rs ih =>
      rw [List.any_cons] at h
      simp only [Bool.or_eq_false_iff, decide_eq_false_iff_not] at h
      rw [invQty, if_neg h.1]
      exact ih h.2

theorem invQty_append_other (l : List InventoryRow) (r : InventoryRow) (pid : Nat)
    (h : pid ≠ r.productId) : invQty (l ++ [r]) pid = invQty l pid := by
  induction l with
  | nil =>
      show invQty [r] pid = invQty [] pid
      simp [invQty, Ne.symm h]
  | cons x xs ih =>
      by_cases hx : x.productId = pid <;> simp [invQty, hx, ih]

theorem invQty_append_self (l : List InventoryRow) (r : InventoryRow)
    (h : l.any (fun x => decide (x.productId = r.productId)) = false) :
    invQty (l ++ [r]) r.productId = r.quantity := by
  induction l with
  | nil => simp [invQty]
  | cons x xs ih =>
      rw [List.any_cons] at h
      simp only [Bool.or_eq_false_iff, decide_eq_false_iff_not] at h
      rw [List.cons_append, invQty, if_neg h.1]
      exact ih h.2

theorem invQty_map_add_self (l : List InventoryRow) (p : Nat) (d : Int)
    (h : l.any (fun r => decide (r.productId = p)) = true) :
    invQty (l.map (fun r =>
      if r.productId = p then { r with quantity := r.quantity + d } else r)) p
      = invQty l p + d := by
  induction l with
  | nil => simp at h
  | cons x xs ih =>
      by_cases hx : x.productId = p
      · simp [invQty, hx]
      · rw [List.any_cons] at h
        simp only [Bool.or_eq_true, decide_eq_true_eq] at h
        have h' : xs.any (fun r => decide (r.productId = p)) = true := by
          rcases h with h | h
          · exact absurd h hx
          · exact h
        simp [invQty, hx, ih h']

theorem invQty_map_add_other (l : List InventoryRow) (p : Nat) (d : Int) (pid : Nat)
    (h : pid ≠ p) :
    invQty (l.map (fun r =>
      if r.productId = p then { r with quantity := r.quantity + d } else r)) pid
      = invQty l pid := by
  induction l with
  | nil => rfl
  | cons x xs ih =>
      by_cases hx : x.productId = p
      · have hxp : ¬(x.productId = pid) := by rw [hx]; exact Ne.symm h
        simp [invQty, hx, hxp, Ne.symm h, ih]
      · by_cases hx2 : x.productId = pid <;> simp [invQty, hx, hx2, h, ih]

theorem movSum_map_preserve (l : List StockMovement) (f : StockMovement → StockMovement)
    (h : ∀ m, (f m).productId = m.productId ∧ (f m).quantityChange = m.quantityChange)
    (pid : Nat) : movSum (l.map f) pid = movSum l pid := by
  induction l with
  | nil => rfl
  | cons m ms ih => simp [movSum, (h m).1, (h m).2, ih]

theorem map_eq_self_of {α : Type} (l : List α) (f : α → α) (h : ∀ a ∈ l, f a = a) :
    l.map f = l := by
  induction l with
  | nil => rfl
  | cons x xs ih =>
      rw [List.map_cons, h x (List.mem_cons_self x xs),
        ih (fun a ha => h a (List.mem_cons_of_mem x ha))]

/-! ## Preservation lemmas for the SQL statements -/

theorem invQty_update_inventory (db : DB) (m : StockMovement) (pid : Nat) :
    invQty (update_inventory_from_stock_movement db m).inventory pid
      = invQty db.inventory pid
        + (if m.productId = pid then m.quantityChange else 0) := by
  unfold update_inventory_from_stock_movement
  by_cases hmem : db.inventory.any (fun r => decide (r.productId = m.productId)) = true
  · rw [if_pos hmem]
    by_cases hpid : m.productId = pid
    · subst hpid
      simp [invQty_map_add_self _ _ _ hmem]
    · simp [invQty_map_add_other _ _ _ _ (fun hc => hpid hc.symm), hpid]
  · rw [if_neg hmem]
    rw [Bool.not_eq_true] at hmem
    by_cases hpid : m.productId = pid
    · subst hpid
      have h0 : invQty db.inventory m.productId = 0 :=
        invQty_eq_zero_of_not_mem _ _ hmem
      have := invQty_append_self db.inventory
        { productId := m.productId, quantity := m.quantityChange } hmem
      simp [this, h0]
    · rw [invQty_append_other _ _ _ (fun hc => hpid hc.symm), if_neg hpid, add_zero]

theorem stockMovements_update_inventory (db : DB) (m : StockMovement) :
    (update_inventory_from_stock_movement db m).stockMovements = db.stockMovements := by
  unfold update_inventory_from_stock_movement
  split <;> rfl

theorem inv_insertStockMovementStmt (db db' : DB) (m : StockMovement)
    (h : insertStockMovementStmt db m = .ok db')
    (hinv : InventoryInvariant db) : InventoryInvariant db' := by
  unfold insertStockMovementStmt at h
  split at h
  · exact absurd h (by simp)
  · split at h
    · exact absurd h (by simp)
    · cases h
      intro pid
      rw [invQty_update_inventory, stockMovements_update_inventory]
      show invQty db.inventory pid + _ = movSum (db.stockMovements ++ [m]) pid
      rw [movSum_append, hinv pid, movSum, movSum, add_zero]

theorem inv_mov_update_customer_balance_on_sale (db : DB) (s : Sale) :
    (update_customer_balance_on_sale db s).inventory = db.inventory ∧
    (update_customer_balance_on_sale db s).stockMovements = db.stockMovements := by
  unfold update_customer_balance_on_sale set_customer_balance
  split
  · split <;> exact ⟨rfl, rfl⟩
  · exact ⟨rfl, rfl⟩

theorem inv_mov_insertSaleStmt (db db' : DB) (s : Sale)
    (h : insertSaleStmt db s = .ok db') :
    db'.inventory = db.inventory ∧ db'.stockMovements = db.stockMovements := by
  unfold insertSaleStmt at h
  split at h
  · simp at h
  · cases h
    exact inv_mov_update_customer_balance_on_sale { db with sales := db.sales ++ [s] } s

theorem inv_mov_update_sale_payment_fields (db : DB) (sid : Nat)
    (st : PaymentStatus) (paid : Int) :
    (update_sale_payment_fields db sid st paid).inventory = db.inventory ∧
    (update_sale_payment_fields db sid st paid).stockMovements = db.stockMovements := by
  unfold update_sale_payment_fields
  split
  · exact ⟨rfl, rfl⟩
  · split
    · exact inv_mov_update_customer_balance_on_sale _ _
    · exact ⟨rfl, rfl⟩

theorem inv_mov_update_customer_balance_on_payment (db db' : DB)
    (p? : Option CustomerPayment)
    (h : update_customer_balance_on_payment db p? = .ok db') :
    db'.inventory = db.inventory ∧ db'.stockMovements = db.stockMovements := by
  unfold update_customer_balance_on_payment at h
  split at h
  · simp at h
  · split at h
    · cases h; exact ⟨rfl, rfl⟩
    · split at h
      · cases h; exact ⟨rfl, rfl⟩
      · cases h; exact ⟨rfl, rfl⟩

theorem inv_mov_update_sale_payment_status (db db' : DB)
    (p? : Option CustomerPayment)
    (h : update_sale_payment_status db p? = .ok db') :
    db'.inventory = db.inventory ∧ db'.stockMovements = db.stockMovements := by
  unfold update_sale_payment_status at h
  split at h
  · simp at h
  · split at h
    · cases h; exact ⟨rfl, rfl⟩
    · cases h; exact inv_mov_update_sale_payment_fields _ _ _ _

theorem inv_mov_insertCustomerPaymentStmt (db db' : DB) (p : CustomerPayment)
    (h : insertCustomerPaymentStmt db p = .ok db') :
    db'.inventory = db.inventory ∧ db'.stockMovements = db.stockMovements := by
  unfold insertCustomerPaymentStmt at h
  split at h
  · simp at h
  · split at h
    · simp at h
    · split at h
      · simp at h
      · dsimp only [] at h
        split at h
        · simp at h
        · rename_i db2 heq
          have h1 := inv_mov_update_customer_balance_on_payment _ _ _ heq
          have h2 := inv_mov_update_sale_payment_status _ _ _ h
          exact ⟨h2.1.trans h1.1, h2.2.trans h1.2⟩

theorem deleteCustomerPaymentStmt_ok (db db' : DB) (pid : Nat)
    (h : deleteCustomerPaymentStmt db pid = .ok db') : db' = db := by
  unfold deleteCustomerPaymentStmt at h
  split at h
  · cases h; rfl
  · dsimp only [] at h
    split at h
    · simp at h
    · rename_i heq
      rw [update_customer_balance_on_payment] at heq
      simp at heq

theorem inv_insertSaleItemStmt (db db' : DB) (it : SaleItem)
    (h : insertSaleItemStmt db it = .ok db') (hinv : InventoryInvariant db) :
    InventoryInvariant db' := by
  unfold insertSaleItemStmt at h
  split at h
  · simp at h
  · split at h
    · simp at h
    · dsimp only [DB.alloc] at h
      exact inv_insertStockMovementStmt _ _ _ h hinv

theorem inv_insertSaleItemsStmt (items : List SaleItemInput) :
    ∀ (db db' : DB) (sid : Nat), insertSaleItemsStmt db sid items = .ok db' →
      InventoryInvariant db → InventoryInvariant db' := by
  induction items with
  | nil =>
      intro db db' sid h hinv
      unfold insertSaleItemsStmt at h
      cases h
      exact hinv
  | cons it rest ih =>
      intro db db' sid h hinv
      unfold insertSaleItemsStmt at h
      dsimp only [DB.alloc] at h
      split at h
      · simp at h
      · rename_i db2 heq
        exact ih _ _ _ h (inv_insertSaleItemStmt _ _ _ heq hinv)

theorem inv_insertPurchaseItemStmt (db db' : DB) (it : PurchaseItem)
    (h : insertPurchaseItemStmt db it = .ok db') (hinv : InventoryInvariant db) :
    InventoryInvariant db' := by
  unfold insertPurchaseItemStmt at h
  split at h
  · simp at h
  · split at h
    · simp at h
    · dsimp only [DB.alloc] at h
      exact inv_insertStockMovementStmt _ _ _ h hinv

theorem inv_insertPurchaseItemsStmt (items : List PurchaseItemInput) :
    ∀ (db db' : DB) (pid : Nat), insertPurchaseItemsStmt db pid items = .ok db' →
      InventoryInvariant db → InventoryInvariant db' := by
  induction items with
  | nil =>
      intro db db' pid h hinv
      unfold insertPurchaseItemsStmt at h
      cases h
      exact hinv
  | cons it rest ih =>
      intro db db' pid h hinv
      unfold insertPurchaseItemsStmt at h
      dsimp only [DB.alloc] at h
      split at h
      · simp at h
      · rename_i db2 heq
        exact ih _ _ _ h (inv_insertPurchaseItemStmt _ _ _ heq hinv)

theorem inv_deleteSaleStmt (db db' : DB) (sid : Nat)
    (h : deleteSaleStmt db sid = .ok db') (hinv : InventoryInvariant db) :
    InventoryInvariant db' := by
  unfold deleteSaleStmt at h
  split at h
  · cases h; exact hinv
  · split at h
    · simp at h
    · dsimp only [] at h
      split at h
      · simp at h
      · cases h
        refine fun pid => (hinv pid).trans (movSum_map_preserve _ _ ?_ pid).symm
        intro m
        refine ⟨?_, ?_⟩ <;> (split <;> rfl)

theorem inv_deletePurchaseStmt (db db' : DB) (pid : Nat)
    (h : deletePurchaseStmt db pid = .ok db') (hinv : InventoryInvariant db) :
    InventoryInvariant db' := by
  unfold deletePurchaseStmt at h
  split at h
  · cases h; exact hinv
  · dsimp only [] at h
    split at h
    · simp at h
    · cases h
      refine fun q => (hinv q).trans (movSum_map_preserve _ _ ?_ q).symm
      intro m
      refine ⟨?_, ?_⟩ <;> (split <;> rfl)

theorem inv_rollbackSaleHeader (db : DB) (sid : Nat) (hinv : InventoryInvariant db) :
    InventoryInvariant (rollbackSaleHeader db sid) := by
  unfold rollbackSaleHeader
  split
  · rename_i db2 heq
    exact inv_deleteSaleStmt _ _ _ heq hinv
  · exact hinv

theorem inv_rollbackPurchaseHeader (db : DB) (pid : Nat)
    (hinv : InventoryInvariant db) :
    InventoryInvariant (rollbackPurchaseHeader db pid) := by
  unfold rollbackPurchaseHeader
  split
  · rename_i db2 heq
    exact inv_deletePurchaseStmt _ _ _ heq hinv
  · exact hinv

theorem inv_createSale (db : DB) (inp : CreateSaleInput) (b : Bool)
    (hinv : InventoryInvariant db) : InventoryInvariant (createSale db inp b).2 := by
  unfold createSale
  split
  · exact hinv
  split
  · exact hinv
  split
  · exact hinv
  split
  · exact hinv
  · dsimp only [DB.alloc]
    split
    · exact hinv
    · rename_i db2 heq
      have hinv2 : InventoryInvariant db2 := by
        intro pid
        have hf := inv_mov_insertSaleStmt _ _ _ heq
        rw [hf.1, hf.2]
        exact hinv pid
      split
      · exact inv_rollbackSaleHeader _ _ hinv2
      · split
        · rename_i db3 heq3
          exact inv_insertSaleItemsStmt _ _ _ _ heq3 hinv2
        · exact inv_rollbackSaleHeader _ _ hinv2

theorem inv_createPurchase (db : DB) (inp : CreatePurchaseInput) (b : Bool)
    (hinv : InventoryInvariant db) :
    InventoryInvariant (createPurchase db inp b).2 := by
  unfold createPurchase
  split
  · exact hinv
  split
  · exact hinv
  · split
    · exact hinv
    split
    · exact hinv
    · dsimp only [DB.alloc]
      split
      · exact inv_rollbackPurchaseHeader _ _ hinv
      · split
        · rename_i db3 heq3
          exact inv_insertPurchaseItemsStmt _ _ _ _ heq3 hinv
        · exact inv_rollbackPurchaseHeader _ _ hinv

theorem inv_createStockAdjustment (db : DB) (inp : StockMovementInput)
    (hinv : InventoryInvariant db) :
    InventoryInvariant (createStockAdjustment db inp).2 := by
  unfold createStockAdjustment
  dsimp only [DB.alloc]
  repeat' split
  any_goals exact hinv
  all_goals (rename_i db2 heq; exact inv_insertStockMovementStmt _ _ _ heq hinv)

theorem inv_recordPayment (db : DB) (inp : PaymentInput)
    (hinv : InventoryInvariant db) :
    InventoryInvariant (recordPayment db inp).2 := by
  unfold recordPayment
  dsimp only [DB.alloc]
  repeat' split
  any_goals exact hinv
  all_goals
    first
    | exact hinv
    | (rename_i db2 heq
       intro pid
       have hf := inv_mov_insertCustomerPaymentStmt _ _ _ heq
       rw [hf.1, hf.2]
       exact hinv pid)

theorem inv_deletePayment (db : DB) (pid : Nat) (hinv : InventoryInvariant db) :
    InventoryInvariant (deletePayment db pid).2 := by
  unfold deletePayment
  split
  · exact hinv
  · split
    · rename_i db2 heq
      exact (deleteCustomerPaymentStmt_ok _ _ _ heq) ▸ hinv
    · exact hinv

theorem inv_deleteSale (db : DB) (sid : Nat) (hinv : InventoryInvariant db) :
    InventoryInvariant (deleteSale db sid).2 := by
  unfold deleteSale
  split
  · exact hinv
  · split
    · rename_i db2 heq
      exact inv_deleteSaleStmt _ _ _ heq hinv
    · exact hinv

theorem inv_deletePurchase (db : DB) (pid : Nat) (hinv : InventoryInvariant db) :
    InventoryInvariant (deletePurchase db pid).2 := by
  unfold deletePurchase
  split
  · exact hinv
  · split
    · rename_i db2 heq
      exact inv_deletePurchaseStmt _ _ _ heq hinv
    · exact hinv

theorem invQty_filter_self (l : List InventoryRow) (p : Nat) :
    invQty (l.filter (fun r => !decide (r.productId = p))) p = 0 := by
  induction l with
  | nil => rfl
  | cons x xs ih =>
      by_cases hx : x.productId = p
      · have hcond : (!decide (x.productId = p)) = false := by simp [hx]
        rw [List.filter_cons, hcond]
        simp only [Bool.false_eq_true, if_false]
        exact ih
      · have hcond : (!decide (x.productId = p)) = true := by simp [hx]
        rw [List.filter_cons, hcond]
        simp only [if_true]
        rw [invQty, if_neg hx]
        exact ih

theorem invQty_filter_other (l : List InventoryRow) (p q : Nat) (h : q ≠ p) :
    invQty (l.filter (fun r => !decide (r.productId = p))) q = invQty l q := by
  induction l with
  | nil => rfl
  | cons x xs ih =>
      by_cases hx : x.productId = p
      · have hxq : ¬(x.productId = q) := by rw [hx]; exact fun hc => h hc.symm
        have hcond : (!decide (x.productId = p)) = false := by simp [hx]
        rw [List.filter_cons, hcond]
        simp only [Bool.false_eq_true, if_false]
        rw [ih, invQty, if_neg hxq]
      · have hcond : (!decide (x.productId = p)) = true := by simp [hx]
        rw [List.filter_cons, hcond]
        simp only [if_true]
        by_cases hxq : x.productId = q <;> simp [invQty, hxq, ih]

theorem movSum_filter_self (l : List StockMovement) (p : Nat) :
    movSum (l.filter (fun m => !decide (m.productId = p))) p = 0 := by
  induction l with
  | nil => rfl
  | cons x xs ih =>
      by_cases hx : x.productId = p
      · have hcond : (!decide (x.productId = p)) = false := by simp [hx]
        rw [List.filter_cons, hcond]
        simp only [Bool.false_eq_true, if_false]
        exact ih
      · have hcond : (!decide (x.productId = p)) = true := by simp [hx]
        rw [List.filter_cons, hcond]
        simp only [if_true]
        rw [movSum, if_neg hx, ih, add_zero]

theorem movSum_filter_other (l : List StockMovement) (p q : Nat) (h : q ≠ p) :
    movSum (l.filter (fun m => !decide (m.productId = p))) q = movSum l q := by
  induction l with
  | nil => rfl
  | cons x xs ih =>
      by_cases hx : x.productId = p
      · have hxq : ¬(x.productId = q) := by rw [hx]; exact fun hc => h hc.symm
        have hcond : (!decide (x.productId = p)) = false := by simp [hx]
        rw [List.filter_cons, hcond]
        simp only [Bool.false_eq_true, if_false]
        rw [ih, movSum, if_neg hxq, zero_add]
      · have hcond : (!decide (x.productId = p)) = true := by simp [hx]
        rw [List.filter_cons, hcond]
        simp only [if_true]
        rw [movSum, movSum, ih]

theorem inv_insertInventoryStmt_zero (db db' : DB) (pid : Nat)
    (h : insertInventoryStmt db { productId := pid, quantity := 0 } = .ok db')
    (hinv : InventoryInvariant db) : InventoryInvariant db' := by
  unfold insertInventoryStmt at h
  split at h
  · simp at h
  · rename_i hnone
    split at h
    · simp at h
    · cases h
      rw [Bool.not_eq_true] at hnone
      intro q
      by_cases hq : q = pid
      · subst hq
        show invQty (db.inventory ++ [{ productId := q, quantity := 0 }]) q
          = movSum db.stockMovements q
        have hz :=
          invQty_append_self db.inventory { productId := q, quantity := 0 } hnone
        rw [hz, ← hinv q, invQty_eq_zero_of_not_mem db.inventory q hnone]
      · show invQty (db.inventory ++ [{ productId := pid, quantity := 0 }]) q
          = movSum db.stockMovements q
        rw [invQty_append_other _ _ _ hq]
        exact hinv q

theorem inv_deleteProductStmt (db db' : DB) (pid : Nat)
    (h : deleteProductStmt db pid = .ok db') (hinv : InventoryInvariant db) :
    InventoryInvariant db' := by
  unfold deleteProductStmt at h
  split at h
  · cases h; exact hinv
  · split at h
    · simp at h
    · split at h
      · simp at h
      · cases h
        intro q
        by_cases hq : q = pid
        · subst hq
          show invQty (db.inventory.filter _) q = movSum (db.stockMovements.filter _) q
          rw [invQty_filter_self, movSum_filter_self]
        · show invQty (db.inventory.filter _) q = movSum (db.stockMovements.filter _) q
          rw [invQty_filter_other _ _ _ hq, movSum_filter_other _ _ _ hq]
          exact hinv q

theorem inv_createProduct (db : DB) (inp : CreateProductInput)
    (hinv : InventoryInvariant db) :
    InventoryInvariant (createProduct db inp).2 := by
  unfold createProduct
  split
  · exact hinv
  split
  · exact hinv
  split
  · exact hinv
  split
  · exact hinv
  · dsimp only [DB.alloc]
    split
    · rename_i db3 heq
      exact inv_insertInventoryStmt_zero _ _ _ heq hinv
    · dsimp only []
      split
      · rename_i db4 heq2
        exact inv_deleteProductStmt _ _ _ heq2 hinv
      · exact hinv

/-! ## Claim C1 -/

/-- C1 (counterexample to the only-written-by-movements conjunct):
`createProduct` writes the `inventory` table directly — on the empty
database a product creation succeeds, an inventory row for the new
product appears, and the stock-movement ledger is untouched (no movement
insert or delete occurred), so inventory is NOT written only in response
to movement inserts/deletes. -/
theorem c1_direct_inventory_write_on_product_creation :
    (createProduct DB.empty newProductInput).1 = CreateProductResult.created 0 ∧
    (createProduct DB.empty newProductInput).2.inventory
      = [{ productId := 0, quantity := 0 }] ∧
    DB.empty.inventory = [] ∧
    (createProduct DB.empty newProductInput).2.stockMovements
      = DB.empty.stockMovements := by decide

/-- C1 (amended): for every product, after any committed operation of the
ledger core — now including `createProduct` — the inventory row's
quantity equals the sum of `quantity_change` over all stock-movement
entries for that product.  Besides the `AFTER INSERT ON stock_movements`
trigger (`update_inventory_from_stock_movement`), the one other write
path to `inventory` is `createProduct`'s direct zero-initialisation of
the new product's row, which is consistent with the product's empty
movement history and therefore preserves the equality. -/
theorem c1_inventory_matches_movement_sum (db : DB) (op : Op)
    (h : InventoryInvariant db) : InventoryInvariant (applyOp db op) := by
  cases op with
  | opCreateProduct inp => exact inv_createProduct db inp h
  | opCreateSale inp b => exact inv_createSale db inp b h
  | opDeleteSale sid => exact inv_deleteSale db sid h
  | opCreatePurchase inp b => exact inv_createPurchase db inp b h
  | opDeletePurchase pid => exact inv_deletePurchase db pid h
  | opCreateStockAdjustment inp => exact inv_createStockAdjustment db inp h
  | opRecordPayment inp => exact inv_recordPayment db inp h
  | opDeletePayment pid => exact inv_deletePayment db pid h

/-- Witness for the amended C1 at a concrete state and operation: the
empty database satisfies the invariant, and it is preserved by a concrete
product creation (the direct-write path). -/
theorem c1_inventory_matches_movement_sum_witness :
    InventoryInvariant (applyOp DB.empty (Op.opCreateProduct newProductInput)) :=
  c1_inventory_matches_movement_sum DB.empty (Op.opCreateProduct newProductInput)
    (fun _ => rfl)

/-! ## More list helpers -/

theorem any_eq_false_of {α : Type} (l : List α) (p : α → Bool)
    (h : ∀ a ∈ l, p a = false) : l.any p = false := by
  induction l with
  | nil => rfl
  | cons x xs ih =>
      rw [List.any_cons, h x (List.mem_cons_self x xs),
        ih (fun a ha => h a (List.mem_cons_of_mem x ha))]
      rfl

theorem filter_eq_nil_of {α : Type} (l : List α) (p : α → Bool)
    (h : ∀ a ∈ l, p a = false) : l.filter p = [] := by
  induction l with
  | nil => rfl
  | cons x xs ih =>
      rw [List.filter_cons, h x (List.mem_cons_self x xs)]
      exact ih (fun a ha => h a (List.mem_cons_of_mem x ha))

theorem filter_eq_self_of {α : Type} (l : List α) (p : α → Bool)
    (h : ∀ a ∈ l, p a = true) : l.filter p = l := by
  induction l with
  | nil => rfl
  | cons x xs ih =>
      rw [List.filter_cons, h x (List.mem_cons_self x xs)]
      simp only [if_true]
      rw [ih (fun a ha => h a (List.mem_cons_of_mem x ha))]

theorem references_deleted_sale_item_nil (m : StockMovement) :
    references_deleted_sale_item [] m = false := by
  unfold references_deleted_sale_item
  split <;> rfl

/-! ## Claim C2 -/

/-- C2 (code bug): deleting a sale does NOT restore inventory.  On the
fixture (product 1 at stock 2 after a sale of 8 from an initial 10),
`deleteSale` fails: the `ON DELETE SET NULL` referential action on
`stock_movements.sale_item_id` violates the `check_single_reference`
CHECK constraint (and no reversal trigger exists at all), so the delete
aborts, the state is unchanged, and the inventory stays at 2 instead of
being restored to 10. -/
theorem c2_delete_sale_does_not_restore_inventory :
    (deleteSale dbReversal 20).1 = DeleteResult.deleteFailed ∧
    (deleteSale dbReversal 20).2 = dbReversal ∧
    invQty (deleteSale dbReversal 20).2.inventory 1 = 2 := by decide

/-! ## Claim C3 -/

/-- C3 (code bug): on the spec's own settlement scenario (sale of 1000
with 400 already paid, customer balance 600), recording the final payment
of 600 marks the sale `paid` with `amount_paid = 1000`, but the customer's
`current_balance` stays at the stale value 600 while the sum of
`total_amount − amount_paid` over pending/partial sales is 0: the
balance trigger on `customer_payments` runs (alphabetically) before the
sale row is updated, and the recompute after the sale update is skipped
because the new status `paid` is not in `('pending','partial')`. -/
theorem c3_final_payment_leaves_stale_balance :
    (recordPayment dbSettlement finalPaymentInput).1
      = RecordPaymentResult.recorded 100 ∧
    ((recordPayment dbSettlement finalPaymentInput).2.sales.find?
        (fun s => decide (s.id = 20))).map
      (fun s => (s.paymentStatus, s.amountPaid))
      = some (PaymentStatus.paid, 1000) ∧
    ((recordPayment dbSettlement finalPaymentInput).2.customers.find?
        (fun c => decide (c.id = 5))).map (fun c => c.currentBalance)
      = some 600 ∧
    customer_outstanding_sum (recordPayment dbSettlement finalPaymentInput).2.sales 5
      = 0 := by decide

/-! ## Claim C9 -/

/-- C9 (code bug): `deletePayment` neither deletes the row nor recomputes
anything.  The `AFTER DELETE` triggers on `customer_payments` run
functions that read `NEW.sale_id`, and `NEW` is unassigned in a delete
trigger, so the DELETE statement aborts: the controller reports failure
and the state (including the payment row) is unchanged. -/
theorem c9_delete_payment_aborts :
    (deletePayment dbSettlement 30).1 = DeletePaymentResult.deleteFailed ∧
    (deletePayment dbSettlement 30).2 = dbSettlement ∧
    dbSettlement.customerPayments.find? (fun p => decide (p.id = 30)) ≠ none := by
  decide

/-! ## Claim C4 -/

/-- C4: a payment whose amount strictly exceeds the sale's remaining
balance (`total_amount − amount_paid`) is rejected with the
exceeds-balance conflict error, and the database — payment rows, sales,
customers — is completely unchanged. -/
theorem c4_overpayment_rejected (db : DB) (inp : PaymentInput) (sale : Sale)
    (cid : Nat)
    (hfind : db.sales.find? (fun s => decide (s.id = inp.saleId)) = some sale)
    (hcust : sale.customerId = some cid)
    (hpos : 0 < inp.amount)
    (hover : inp.amount > sale.totalAmount - sale.amountPaid) :
    recordPayment db inp
      = (.exceedsBalance inp.amount (sale.totalAmount - sale.amountPaid), db) := by
  unfold recordPayment
  rw [hfind]
  dsimp only []
  rw [hcust]
  dsimp only []
  rw [if_neg (by omega : ¬ inp.amount ≤ 0), if_pos hover]

/-- Witness for C4 on the settlement fixture: paying 700 against a
remaining balance of 600 is rejected and the state is untouched. -/
theorem c4_overpayment_rejected_witness :
    recordPayment dbSettlement overPaymentInput
      = (.exceedsBalance 700 (1000 - 400), dbSettlement) :=
  c4_overpayment_rejected dbSettlement overPaymentInput
    ⟨20, some 5, 1000, 0, 1000, .mpesa, .partiallyPaid, 400⟩ 5
    (by decide) (by decide) (by decide) (by decide)

/-! ## Claim C7 -/

theorem firstInsufficient_none_iff (inv : List InventoryRow)
    (items : List SaleItemInput) :
    firstInsufficient inv items = none ↔
      ∀ it ∈ items, it.quantity ≤ invQty inv it.productId := by
  induction items with
  | nil => simp [firstInsufficient]
  | cons it rest ih =>
      unfold firstInsufficient
      dsimp only []
      by_cases hq : it.quantity > invQty inv it.productId
      · rw [if_pos hq]
        simp only [List.mem_cons]
        constructor
        · intro h; exact absurd h (by simp)
        · intro h; exact absurd (h it (Or.inl rfl)) (by omega)
      · rw [if_neg hq, ih]
        constructor
        · intro h a ha
          rcases List.mem_cons.mp ha with rfl | ha'
          · omega
          · exact h a ha'
        · intro h a ha
          exact h a (List.mem_cons_of_mem _ ha)

theorem firstInsufficient_some (inv : List InventoryRow)
    (items : List SaleItemInput) (a r : Int)
    (h : firstInsufficient inv items = some (a, r)) :
    ∃ it ∈ items, a = invQty inv it.productId ∧ r = it.quantity ∧ a < r := by
  induction items with
  | nil => simp [firstInsufficient] at h
  | cons it rest ih =>
      unfold firstInsufficient at h
      dsimp only [] at h
      split at h
      · rename_i hq
        cases h
        exact ⟨it, List.mem_cons_self _ _, rfl, rfl, by omega⟩
      · rcases ih h with ⟨x, hx, hrest⟩
        exact ⟨x, List.mem_cons_of_mem _ hx, hrest⟩

/-- C7: `createSale` checks every line item against one inventory read:
the loop reports no shortfall exactly when every requested quantity is at
most the product's current inventory quantity, and if any line fails the
whole request is rejected with an insufficient-stock error naming the
available and requested quantities of the first failing line, with the
database unchanged (no row written). -/
theorem c7_stock_validation (db : DB) (inp : CreateSaleInput) (b : Bool)
    (hne : inp.items.isEmpty = false)
    (hmiss : saleProductsMissing db inp = false)
    (hina : saleHasInactive db inp = false) :
    (firstInsufficient db.inventory inp.items = none ↔
      ∀ it ∈ inp.items, it.quantity ≤ invQty db.inventory it.productId) ∧
    (∀ a r, firstInsufficient db.inventory inp.items = some (a, r) →
      (∃ it ∈ inp.items, a = invQty db.inventory it.productId ∧
        r = it.quantity ∧ a < r) ∧
      createSale db inp b = (.insufficientStock a r, db)) := by
  refine ⟨firstInsufficient_none_iff _ _,
    fun a r h => ⟨firstInsufficient_some _ _ _ _ h, ?_⟩⟩
  unfold createSale
  rw [hne, hmiss, hina, h]
  simp

/-- Witness for C7: requesting 11 units of product 1 against stock 10 is
rejected with the error naming available 10 and requested 11. -/
theorem c7_stock_validation_witness :
    createSale dbStock10 oversizedLineInput false
      = (.insufficientStock 10 11, dbStock10) :=
  ((c7_stock_validation dbStock10 oversizedLineInput false
    (by decide) (by decide) (by decide)).2 10 11 (by decide)).2

/-! ## Claim C8 -/

theorem any_of_find? {α : Type} (l : List α) (p : α → Bool) (x : α)
    (h : l.find? p = some x) : l.any p = true :=
  List.any_eq_true.mpr ⟨x, List.mem_of_find?_eq_some h, List.find?_some h⟩

/-- C8: for an adjustment request on an existing active product:
(a) if the resulting stock would be negative and the reason is not
`correction`, the request is rejected with the would-go-negative error and
the database unchanged; (b) if the reason is `correction` or the resulting
stock is nonnegative, the adjustment succeeds and the inventory becomes
`current + quantity_change` (possibly negative for `correction`);
(c) a successful adjustment with any non-`correction` reason leaves the
resulting stock nonnegative. -/
theorem c8_adjustment_policy (db : DB) (inp : StockMovementInput)
    (r : AdjustmentReason) (prod : Product)
    (htype : inp.movementType = .adjustment)
    (hreason : inp.adjustmentReason = some r)
    (hsale : inp.saleItemId = none)
    (hpurch : inp.purchaseItemId = none)
    (hfind : db.products.find? (fun p => decide (p.id = inp.productId)) = some prod)
    (hact : prod.isActive = true) :
    (invQty db.inventory inp.productId + inp.quantityChange < 0 →
      r ≠ .correction →
      createStockAdjustment db inp
        = (.wouldGoNegative (invQty db.inventory inp.productId)
            inp.quantityChange, db)) ∧
    ((r = .correction ∨ 0 ≤ invQty db.inventory inp.productId + inp.quantityChange) →
      (createStockAdjustment db inp).1 = .created db.nextId ∧
      invQty (createStockAdjustment db inp).2.inventory inp.productId
        = invQty db.inventory inp.productId + inp.quantityChange) ∧
    (r ≠ .correction → ∀ mid, (createStockAdjustment db inp).1 = .created mid →
      0 ≤ invQty (createStockAdjustment db inp).2.inventory inp.productId) := by
  have hrej : invQty db.inventory inp.productId + inp.quantityChange < 0 →
      r ≠ .correction →
      createStockAdjustment db inp
        = (.wouldGoNegative (invQty db.inventory inp.productId)
            inp.quantityChange, db) := by
    intro hneg hnc
    unfold createStockAdjustment
    rw [if_neg (by rw [htype]; exact fun hc => hc rfl)]
    rw [hreason, hsale, hpurch, hfind]
    dsimp only [Option.isNone_some]
    rw [if_neg (by simp)]
    rw [if_neg (by simp)]
    rw [hact]
    rw [if_neg (by simp)]
    rw [if_pos ⟨hneg, by simpa using hnc⟩]
  have hsucc : (r = .correction ∨
      0 ≤ invQty db.inventory inp.productId + inp.quantityChange) →
      (createStockAdjustment db inp).1 = .created db.nextId ∧
      invQty (createStockAdjustment db inp).2.inventory inp.productId
        = invQty db.inventory inp.productId + inp.quantityChange := by
    intro hok
    have hguard : ¬(invQty db.inventory inp.productId + inp.quantityChange < 0 ∧
        inp.adjustmentReason ≠ some AdjustmentReason.correction) := by
      rcases hok with hc | hge
      · rw [hreason, hc]; exact fun hcon => hcon.2 rfl
      · exact fun hcon => absurd hcon.1 (by omega)
    have hrun : createStockAdjustment db inp
        = (.created db.nextId,
           update_inventory_from_stock_movement
             { db with
                 stockMovements := db.stockMovements ++
                   [{ id := db.nextId, productId := inp.productId
                      movementType := MovementType.adjustment
                      saleItemId := none, purchaseItemId := none
                      adjustmentReason := inp.adjustmentReason
                      quantityChange := inp.quantityChange }]
                 nextId := db.nextId + 1 }
             { id := db.nextId, productId := inp.productId
               movementType := MovementType.adjustment
               saleItemId := none, purchaseItemId := none
               adjustmentReason := inp.adjustmentReason
               quantityChange := inp.quantityChange }) := by
      unfold createStockAdjustment
      rw [if_neg (by rw [htype]; exact fun hc => hc rfl)]
      rw [hreason, hsale, hpurch, hfind]
      dsimp only [Option.isNone_some]
      rw [if_neg (by simp)]
      rw [if_neg (by simp)]
      rw [hact]
      rw [if_neg (by simp)]
      rw [if_neg (fun hcon => hguard ⟨hcon.1, by rw [hreason]; exact hcon.2⟩)]
      dsimp only [DB.alloc]
      unfold insertStockMovementStmt
      rw [if_neg (by
        simp [check_adjustment_reason, check_single_reference, hreason])]
      rw [if_neg (by simp [any_of_find? _ _ _ hfind])]
    rw [hrun]
    refine ⟨rfl, ?_⟩
    rw [invQty_update_inventory]
    simp
  refine ⟨hrej, hsucc, ?_⟩
  intro hnc mid hcre
  by_cases hneg : invQty db.inventory inp.productId + inp.quantityChange < 0
  · rw [hrej hneg hnc] at hcre
    simp at hcre
  · have := hsucc (Or.inr (by omega))
    rw [this.2]
    omega

/-- Witness for C8 on the spec's boundary scenario: with stock 5, an
adjustment of −8 with reason `damaged` is rejected; the same adjustment
with reason `correction` succeeds and leaves stock −3. -/
theorem c8_adjustment_policy_witness :
    createStockAdjustment dbStock5 (minusEightAdjustment .damaged)
      = (.wouldGoNegative 5 (-8), dbStock5) ∧
    (createStockAdjustment dbStock5 (minusEightAdjustment .correction)).1
      = .created 2 ∧
    invQty (createStockAdjustment dbStock5
      (minusEightAdjustment .correction)).2.inventory 1 = -3 :=
  ⟨(c8_adjustment_policy dbStock5 (minusEightAdjustment .damaged) .damaged
      ⟨1, 1, true⟩ (by decide) (by decide) (by decide) (by decide) (by decide)
      (by decide)).1 (by decide) (by decide),
   (c8_adjustment_policy dbStock5 (minusEightAdjustment .correction) .correction
      ⟨1, 1, true⟩ (by decide) (by decide) (by decide) (by decide) (by decide)
      (by decide)).2.1 (Or.inl rfl)⟩

/-! ## Claim C6 -/

theorem tables_update_customer_balance_on_sale (db : DB) (s : Sale) :
    (update_customer_balance_on_sale db s).sales = db.sales ∧
    (update_customer_balance_on_sale db s).saleItems = db.saleItems ∧
    (update_customer_balance_on_sale db s).customerPayments = db.customerPayments := by
  unfold update_customer_balance_on_sale set_customer_balance
  split
  · split <;> exact ⟨rfl, rfl, rfl⟩
  · exact ⟨rfl, rfl, rfl⟩

theorem fields_insertSaleStmt (db db' : DB) (s : Sale)
    (h : insertSaleStmt db s = .ok db') :
    db'.sales = db.sales ++ [s] ∧ db'.saleItems = db.saleItems ∧
    db'.stockMovements = db.stockMovements ∧
    db'.customerPayments = db.customerPayments := by
  unfold insertSaleStmt at h
  split at h
  · simp at h
  · cases h
    have h1 := tables_update_customer_balance_on_sale { db with sales := db.sales ++ [s] } s
    have h2 := inv_mov_update_customer_balance_on_sale { db with sales := db.sales ++ [s] } s
    exact ⟨h1.1, h1.2.1, h2.2, h1.2.2⟩

theorem tables_insertStockMovementStmt (db db' : DB) (m : StockMovement)
    (h : insertStockMovementStmt db m = .ok db') :
    db'.sales = db.sales ∧ db'.saleItems = db.saleItems ∧
    db'.customerPayments = db.customerPayments := by
  unfold insertStockMovementStmt at h
  split at h
  · simp at h
  · split at h
    · simp at h
    · cases h
      unfold update_inventory_from_stock_movement
      split <;> exact ⟨rfl, rfl, rfl⟩

theorem tables_insertSaleItemStmt (db db' : DB) (it : SaleItem)
    (h : insertSaleItemStmt db it = .ok db') :
    db'.sales = db.sales ∧ db'.customerPayments = db.customerPayments := by
  unfold insertSaleItemStmt at h
  split at h
  · simp at h
  · split at h
    · simp at h
    · dsimp only [DB.alloc] at h
      have h1 := tables_insertStockMovementStmt _ _ _ h
      exact ⟨h1.1, h1.2.2⟩

theorem sales_insertSaleItemsStmt (items : List SaleItemInput) :
    ∀ (db db' : DB) (sid : Nat), insertSaleItemsStmt db sid items = .ok db' →
      db'.sales = db.sales ∧ db'.customerPayments = db.customerPayments := by
  induction items with
  | nil =>
      intro db db' sid h
      unfold insertSaleItemsStmt at h
      cases h
      exact ⟨rfl, rfl⟩
  | cons it rest ih =>
      intro db db' sid h
      unfold insertSaleItemsStmt at h
      dsimp only [DB.alloc] at h
      split at h
      · simp at h
      · rename_i db2 heq
        have h1 := tables_insertSaleItemStmt _ _ _ heq
        have h2 := ih _ _ _ h
        exact ⟨h2.1.trans h1.1, h2.2.trans h1.2⟩

/-- C6: when `createSale` succeeds, the inserted sale row has
`total_amount = subtotal − discount_amount` (subtotal the sum of the line
totals), and its payment fields are determined by: cash method (the
default when none is given) or no customer ⇒ `paid` with
`amount_paid = total_amount`; customer attached and non-cash method ⇒
`pending` with `amount_paid = 0`. -/
theorem c6_payment_status_determination (db : DB) (inp : CreateSaleInput)
    (sid : Nat) (h : (createSale db inp false).1 = .created sid) :
    ∃ s : Sale,
      (createSale db inp false).2.sales = db.sales ++ [s] ∧
      s.totalAmount = (inp.items.map (fun it => it.lineTotal)).sum
        - inp.discountAmount.getD 0 ∧
      ((inp.paymentMethod.getD .cash = .cash ∨ inp.customerId = none) →
        s.paymentStatus = .paid ∧ s.amountPaid = s.totalAmount) ∧
      (inp.customerId ≠ none → inp.paymentMethod.getD .cash ≠ .cash →
        s.paymentStatus = .pending ∧ s.amountPaid = 0) := by
  rcases hall : createSale db inp false with ⟨res, dbf⟩
  rw [hall] at h
  dsimp only [] at h
  subst h
  dsimp only []
  unfold createSale at hall
  dsimp only [DB.alloc] at hall
  split at hall
  · simp at hall
  split at hall
  · simp at hall
  split at hall
  · simp at hall
  split at hall
  · simp at hall
  · split at hall
    · simp at hall
    · rename_i db2 heq
      split at hall
      · simp at hall
      · split at hall
        · rename_i db3 heq3
          rw [Prod.mk.injEq] at hall
          rcases hall with ⟨-, hdbf⟩
          subst hdbf
          have hsales3 := (sales_insertSaleItemsStmt _ _ _ _ heq3).1
          have hsales2 := (fields_insertSaleStmt _ _ _ heq).1
          refine ⟨_, hsales3.trans hsales2, rfl, ?_, ?_⟩
          · intro hor
            have hb : (decide (inp.paymentMethod.getD PaymentMethod.cash
                = PaymentMethod.cash) || !inp.customerId.isSome) = true := by
              rcases hor with hc | hn
              · simp [hc]
              · simp [hn]
            simp only [hb]
            simp
          · intro hcust hmeth
            have hb : (decide (inp.paymentMethod.getD PaymentMethod.cash
                = PaymentMethod.cash) || !inp.customerId.isSome) = false := by
              rcases ho : inp.customerId with _ | c
              · exact absurd ho hcust
              · simp [hmeth, ho]
            simp only [hb]
            simp
        · simp at hall

/-- Witness for C6: a concrete credit sale (customer 5, M-Pesa, discount
50) succeeds and the inserted row is pending with nothing paid. -/
theorem c6_payment_status_determination_witness :
    ∃ s : Sale,
      (createSale dbStock10Customer creditSaleInput false).2.sales
        = dbStock10Customer.sales ++ [s] ∧
      s.totalAmount = (creditSaleInput.items.map (fun it => it.lineTotal)).sum
        - creditSaleInput.discountAmount.getD 0 ∧
      ((creditSaleInput.paymentMethod.getD .cash = .cash ∨
          creditSaleInput.customerId = none) →
        s.paymentStatus = .paid ∧ s.amountPaid = s.totalAmount) ∧
      (creditSaleInput.customerId ≠ none →
        creditSaleInput.paymentMethod.getD .cash ≠ .cash →
        s.paymentStatus = .pending ∧ s.amountPaid = 0) :=
  c6_payment_status_determination dbStock10Customer creditSaleInput 2 (by decide)

/-! ## Claim C10 -/

/-- C10 (counterexample): on the scenario the claim describes — stock 10,
two lines of 6 for the same product, each line individually within stock
and the two together exceeding it — `createSale` does NOT accept the
request: the `products.length !== productIds.length` check compares the
distinct product rows with the duplicated id list and rejects with
"products not found", leaving the database unchanged. -/
theorem c10_duplicate_overdraw_counterexample :
    (∀ it ∈ duplicateLinesInput.items,
        it.quantity ≤ invQty dbStock10.inventory it.productId) ∧
    invQty dbStock10.inventory 1
      < (duplicateLinesInput.items.map (fun it => it.quantity)).sum ∧
    createSale dbStock10 duplicateLinesInput false
      = (.productsNotFound, dbStock10) := by decide

/-- C10 (amended): any `createSale` request that lists the same product
in more than one line item is rejected at the product-existence check
(the query returns each matching product once, so the length comparison
with the duplicated id list fails), with the database unchanged — such a
request is never accepted, so duplicate lines cannot drive inventory
negative. -/
theorem c10_duplicate_product_lines_rejected (db : DB) (inp : CreateSaleInput)
    (b : Bool)
    (hpk : (db.products.map (fun p => p.id)).Nodup)
    (hdup : ¬ (saleProductIds inp).Nodup) :
    createSale db inp b = (.productsNotFound, db) := by
  have hne : inp.items.isEmpty = false := by
    cases hi : inp.items with
    | nil => exact absurd (by simp [saleProductIds, hi]) hdup
    | cons a l => simp [hi]
  have hq_nodup : ((saleProductsQuery db inp).map (fun p => p.id)).Nodup :=
    List.Nodup.sublist
      (List.Sublist.map (fun p => p.id) (List.filter_sublist db.products)) hpk
  have hq_sub : ∀ x ∈ (saleProductsQuery db inp).map (fun p => p.id),
      x ∈ saleProductIds inp := by
    intro x hx
    rcases List.mem_map.mp hx with ⟨p, hp, rfl⟩
    have hc := List.of_mem_filter hp
    simpa using hc
  have hlen : (saleProductsQuery db inp).length
      ≤ (saleProductIds inp).dedup.length := by
    have h1 : (saleProductsQuery db inp).length
        = ((saleProductsQuery db inp).map (fun p => p.id)).length :=
      (List.length_map _ _).symm
    rw [h1, ← List.toFinset_card_of_nodup hq_nodup, ← List.card_toFinset]
    exact Finset.card_le_card
      (fun x hx => List.mem_toFinset.mpr (hq_sub x (List.mem_toFinset.mp hx)))
  have hlt : (saleProductIds inp).dedup.length < (saleProductIds inp).length := by
    rcases Nat.lt_or_ge (saleProductIds inp).dedup.length
      (saleProductIds inp).length with h | h
    · exact h
    · exfalso
      have hle := (List.dedup_sublist (saleProductIds inp)).length_le
      have heq := (List.dedup_sublist (saleProductIds inp)).eq_of_length
        (le_antisymm hle h)
      exact hdup (heq ▸ List.nodup_dedup (saleProductIds inp))
  have hmiss : saleProductsMissing db inp = true := by
    unfold saleProductsMissing
    rw [decide_eq_true_eq]
    omega
  unfold createSale
  rw [hne, hmiss]
  simp

/-- Witness for the amended C10: a three-line request repeating product 1
is rejected with no state change. -/
theorem c10_duplicate_product_lines_rejected_witness :
    createSale dbStock10 tripleLinesInput true = (.productsNotFound, dbStock10) :=
  c10_duplicate_product_lines_rejected dbStock10 tripleLinesInput true
    (by decide) (by decide)

/-! ## Claim C5 -/

/-- C5: when the sale-items insert fails, `createSale` leaves zero rows of
the attempt in `sales`, `sale_items` and `stock_movements`: the
already-inserted header is deleted by the explicit rollback, and the
failed items statement inserted nothing (per-statement atomicity).  The
hypotheses say that stored ids are below the id generator, i.e. the fresh
header id collides with nothing. -/
theorem c5_failed_item_insert_leaves_no_rows (db : DB) (inp : CreateSaleInput)
    (hs : ∀ s ∈ db.sales, s.id < db.nextId)
    (hi : ∀ it ∈ db.saleItems, it.saleId < db.nextId)
    (hpay : ∀ p ∈ db.customerPayments, p.saleId < db.nextId) :
    (createSale db inp true).2.sales = db.sales ∧
    (createSale db inp true).2.saleItems = db.saleItems ∧
    (createSale db inp true).2.stockMovements = db.stockMovements := by
  unfold createSale
  dsimp only [DB.alloc]
  split
  · exact ⟨rfl, rfl, rfl⟩
  split
  · exact ⟨rfl, rfl, rfl⟩
  split
  · exact ⟨rfl, rfl, rfl⟩
  split
  · exact ⟨rfl, rfl, rfl⟩
  · split
    · exact ⟨rfl, rfl, rfl⟩
    · rename_i db2 heq
      rw [if_pos rfl]
      have hf := fields_insertSaleStmt _ _ _ heq
      have hdel : deleteSaleStmt db2 db.nextId = .ok { db2 with
          sales := db.sales, saleItems := db.saleItems
          stockMovements := db.stockMovements } := by
        unfold deleteSaleStmt
        have hc1 : db2.sales.any (fun s => decide (s.id = db.nextId)) = true := by
          rw [hf.1, List.any_append]
          simp
        have hc2 : db2.customerPayments.any
            (fun p => decide (p.saleId = db.nextId)) = false := by
          rw [hf.2.2.2]
          exact any_eq_false_of _ _
            (fun p hp' => decide_eq_false (Nat.ne_of_lt (hpay p hp')))
        have hitems : db2.saleItems.filter
            (fun it => decide (it.saleId = db.nextId)) = [] := by
          rw [hf.2.1]
          exact filter_eq_nil_of _ _
            (fun it hit => decide_eq_false (Nat.ne_of_lt (hi it hit)))
        rw [hc1, hc2]
        dsimp only []
        rw [hitems]
        simp only [Bool.not_true, Bool.false_eq_true, if_false, List.map_nil]
        have hc3 : db2.stockMovements.any (fun m =>
            references_deleted_sale_item [] m &&
            !(check_single_reference { m with saleItemId := none } &&
              check_adjustment_reason { m with saleItemId := none })) = false :=
          any_eq_false_of _ _
            (fun m _ => by rw [references_deleted_sale_item_nil]; rfl)
        rw [hc3]
        simp only [Bool.false_eq_true, if_false]
        have hsales : db2.sales.filter (fun s => !decide (s.id = db.nextId))
            = db.sales := by
          rw [hf.1, List.filter_append]
          have h1 : db.sales.filter (fun s => !decide (s.id = db.nextId))
              = db.sales :=
            filter_eq_self_of _ _ (fun s hs' => by
              rw [decide_eq_false (Nat.ne_of_lt (hs s hs'))]; rfl)
          simp [h1]
        have hitems2 : db2.saleItems.filter
            (fun it => !decide (it.saleId = db.nextId)) = db.saleItems := by
          rw [hf.2.1]
          exact filter_eq_self_of _ _ (fun it hit => by
            rw [decide_eq_false (Nat.ne_of_lt (hi it hit))]; rfl)
        have hmov : db2.stockMovements.map (fun m =>
            if references_deleted_sale_item [] m = true then
              { m with saleItemId := none } else m) = db.stockMovements := by
          rw [hf.2.2.1]
          exact map_eq_self_of _ _ (fun m _ => by
            rw [references_deleted_sale_item_nil]; rfl)
        rw [hsales, hitems2, hmov]
      unfold rollbackSaleHeader
      rw [hdel]
      exact ⟨rfl, rfl, rfl⟩

/-- Witness for C5: a concrete sale attempt against the stocked fixture
whose item insert fails leaves all three tables exactly as before. -/
theorem c5_failed_item_insert_leaves_no_rows_witness :
    (createSale dbStock10 singleLineInput true).2.sales = dbStock10.sales ∧
    (createSale dbStock10 singleLineInput true).2.saleItems
      = dbStock10.saleItems ∧
    (createSale dbStock10 singleLineInput true).2.stockMovements
      = dbStock10.stockMovements :=
  c5_failed_item_insert_leaves_no_rows dbStock10 singleLineInput
    (by decide) (by decide) (by decide)
